import Mathlib

/-!
Verification of the temporal compositing and change-detection engine of the
cubequery-deployment process tasks, by a shallow embedding of the relevant
pixel-level operations.

Raster cell values are IEEE-like floats carrying a NaN nodata marker; they are
modelled as `Option ℚ`, with `none` standing for NaN.  The comparison operators
follow IEEE semantics: every ordered comparison or equality involving NaN is
false, while `!=` involving NaN is true.  `xarray.DataArray.where(cond)`
replaces cells failing the condition with NaN; `where(cond, r)` replaces them
with the scalar `r`.  All operations below act pixel-wise, so the embedding is
per-cell.
-/

/-- A float cell value: `none` is NaN (nodata). -/
abbrev FVal := Option ℚ

/-- IEEE `<` on cells: false whenever either side is NaN. -/
def flt : FVal → FVal → Bool
  | some a, some b => decide (a < b)
  | _, _ => false

/-- IEEE `<=` on cells: false whenever either side is NaN. -/
def fle : FVal → FVal → Bool
  | some a, some b => decide (a ≤ b)
  | _, _ => false

/-- IEEE `>` on cells: false whenever either side is NaN. -/
def fgt : FVal → FVal → Bool
  | some a, some b => decide (b < a)
  | _, _ => false

/-- IEEE `>=` on cells: false whenever either side is NaN. -/
def fge : FVal → FVal → Bool
  | some a, some b => decide (b ≤ a)
  | _, _ => false

/-- IEEE `==` on cells: false whenever either side is NaN. -/
def feq : FVal → FVal → Bool
  | some a, some b => decide (a = b)
  | _, _ => false

/-- IEEE `!=` on cells: true whenever either side is NaN (`NaN != x` holds). -/
def fne : FVal → FVal → Bool
  | some a, some b => decide (a ≠ b)
  | _, _ => true

/-- `x.where(cond)`: keep the cell where `cond` holds, NaN elsewhere. -/
def fwhere (x : FVal) (cond : Bool) : FVal :=
  if cond then x else none

/-- `x.where(cond, r)`: keep the cell where `cond` holds, scalar `r` elsewhere. -/
def fwhereR (x : FVal) (cond : Bool) (r : ℚ) : FVal :=
  if cond then x else some r

/-- Cell subtraction; NaN propagates. -/
def fsub : FVal → FVal → FVal
  | some a, some b => some (a - b)
  | _, _ => none

/-- `np.isnan` on a cell. -/
def fisnan : FVal → Bool
  | none => true
  | some _ => false

/-!
Threshold classification of the anomaly raster
(`vegetation_change.py`, `VegetationChange.generate_product`, lines 306-311):

    no_data_mask = np.isnan(parameter_anomaly_output)
    a = parameter_anomaly_output
    b = a.where((a < maxC) | (no_data_mask == True), 200)
    c = b.where((b > minC) | (no_data_mask == True), 300)
    d = c.where(((c >= maxC) | (c <= minC)) | (no_data_mask == True), 100)
-/

/-- Per-pixel threshold classification of the anomaly value, as in
`VegetationChange.generate_product`. -/
def classifyThreshold (minC maxC : ℚ) (a : FVal) : FVal :=
  let nd := fisnan a
  let b := fwhereR a (flt a (some maxC) || nd) 200
  let c := fwhereR b (fgt b (some minC) || nd) 300
  fwhereR c ((fge c (some maxC) || fle c (some minC)) || nd) 100

/-!
Anomaly raster of `VegetationChange.generate_product`, lines 291-298:

    vegetation_baseline = parameter_baseline_composite.where(
        water_composite_base.values <= 0.4).where(parameter_baseline_composite != -9999)
    vegetation_analysis = parameter_analysis_composite.where(
        water_composite_analysis.values <= 0.4).where(parameter_analysis_composite != -9999)
    parameter_anomaly = vegetation_analysis - vegetation_baseline
-/

/-- Water masking of one period's derived-index cell, as in
`VegetationChange.generate_product`: keep where the period's water occurrence
is at most 0.4, then keep where the index is not the -9999 sentinel. -/
def vegMask (p w : FVal) : FVal :=
  fwhere (fwhere p (fle w (some 0.4))) (fne p (some (-9999)))

/-- The per-pixel anomaly: masked analysis index minus masked baseline index. -/
def parameterAnomaly (pAnalysis wAnalysis pBaseline wBaseline : FVal) : FVal :=
  fsub (vegMask pAnalysis wAnalysis) (vegMask pBaseline wBaseline)

/-- A derived-index cell is valid for the anomaly when it carries a value that
is not the -9999 nodata sentinel and its period's water occurrence is a value
at most 0.4. -/
def validIdx (p w : FVal) : Prop :=
  ∃ v w', p = some v ∧ v ≠ -9999 ∧ w = some w' ∧ w' ≤ 0.4

-- Helper: closed form of the per-period mask.
theorem vegMask_some (p w : FVal) (v w' : ℚ) (hp : p = some v) (hv : v ≠ -9999)
    (hw : w = some w') (hw' : w' ≤ 0.4) : vegMask p w = some v := by
  subst hp hw
  simp [vegMask, fwhere, fle, fne, hw', hv]

theorem vegMask_none (p w : FVal) (h : ¬ validIdx p w) : vegMask p w = none := by
  cases p with
  | none => cases w <;> simp [vegMask, fwhere, fle, fne]
  | some v =>
    cases w with
    | none => simp [vegMask, fwhere, fle, fne]
    | some w' =>
      by_cases hw : w' ≤ 0.4
      · by_cases hv : v = -9999
        · subst hv
          simp [vegMask, fwhere, fle, fne, hw]
        · exact absurd ⟨v, w', rfl, hv, rfl, hw⟩ h
      · simp [vegMask, fwhere, fle, fne, hw]

-- Helper: reduction lemmas for the cell comparisons on value operands.
theorem flt_some (a b : ℚ) : flt (some a) (some b) = decide (a < b) := rfl

theorem fle_some (a b : ℚ) : fle (some a) (some b) = decide (a ≤ b) := rfl

theorem fgt_some (a b : ℚ) : fgt (some a) (some b) = decide (b < a) := rfl

theorem fge_some (a b : ℚ) : fge (some a) (some b) = decide (b ≤ a) := rfl

-- Helper: subtraction with a NaN operand is NaN.
theorem fsub_none_left (x : FVal) : fsub none x = none := rfl

theorem fsub_none_right (x : FVal) : fsub x none = none := by
  cases x <;> rfl

/-- Helper: bucket evaluation of the threshold classifier for thresholds below
the class codes (the declared parameter range is `[-100, 100]`). -/
theorem classifyThreshold_cases (minC maxC : ℚ) (hhi1 : minC ≤ 100) (hhi2 : maxC ≤ 100)
    (hlt : minC < maxC) (v : ℚ) :
    (maxC ≤ v → classifyThreshold minC maxC (some v) = some 200) ∧
    (v ≤ minC → classifyThreshold minC maxC (some v) = some 300) ∧
    (minC < v → v < maxC → classifyThreshold minC maxC (some v) = some 100) := by
  refine ⟨?_, ?_, ?_⟩ <;> intros <;>
    simp only [classifyThreshold, fisnan, fwhereR, Bool.or_false] <;>
    split_ifs <;>
    simp only [flt_some, fgt_some, fge_some, fle_some, Bool.or_eq_true,
      decide_eq_true_eq, not_or] at * <;>
    first
      | rfl
      | (exfalso ; casesm* _ ∧ _, _ ∨ _ <;> linarith)

/-- C1.  Threshold classification: with the thresholds inside their declared
parameter range `[-100, 100]` and `minC < maxC`, a valid anomaly value `v` is
bucketed as increase (200) when `v ≥ maxC`, decrease (300) when `v ≤ minC`,
and no-change (100) when `minC < v < maxC`; a NaN input stays NaN; and with
`minC = -0.2`, `maxC = 0.2`: 0.25 ↦ 200, -0.25 ↦ 300, 0.0 ↦ 100, NaN ↦ NaN. -/
theorem threshold_classification_buckets (minC maxC v : ℚ)
    (hlo1 : -100 ≤ minC) (hhi1 : minC ≤ 100) (hlo2 : -100 ≤ maxC) (hhi2 : maxC ≤ 100)
    (hlt : minC < maxC) :
    (maxC ≤ v → classifyThreshold minC maxC (some v) = some 200) ∧
    (v ≤ minC → classifyThreshold minC maxC (some v) = some 300) ∧
    (minC < v → v < maxC → classifyThreshold minC maxC (some v) = some 100) ∧
    classifyThreshold minC maxC none = none ∧
    classifyThreshold (-0.2) 0.2 (some 0.25) = some 200 ∧
    classifyThreshold (-0.2) 0.2 (some (-0.25)) = some 300 ∧
    classifyThreshold (-0.2) 0.2 (some 0) = some 100 ∧
    classifyThreshold (-0.2) 0.2 none = none := by
  have h := classifyThreshold_cases minC maxC hhi1 hhi2 hlt v
  have hc := classifyThreshold_cases (-0.2) 0.2 (by norm_num) (by norm_num) (by norm_num)
  exact ⟨h.1, h.2.1, h.2.2, rfl,
    (hc 0.25).1 (by norm_num), (hc (-0.25)).2.1 (by norm_num),
    (hc 0).2.2 (by norm_num) (by norm_num), rfl⟩

/-- Witness for C1 at `minC = -0.2`, `maxC = 0.2`, `v = 0.25`. -/
theorem threshold_classification_buckets_witness :
    classifyThreshold (-0.2) 0.2 (some 0.25) = some 200 ∧
    classifyThreshold (-0.2) 0.2 (some (-0.25)) = some 300 ∧
    classifyThreshold (-0.2) 0.2 (some 0) = some 100 ∧
    classifyThreshold (-0.2) 0.2 none = none := by
  have h := threshold_classification_buckets (-0.2) 0.2 0.25
    (by norm_num) (by norm_num) (by norm_num) (by norm_num) (by norm_num)
  exact ⟨h.1 (by norm_num), h.2.2.2.2.2.1, h.2.2.2.2.2.2.1, h.2.2.2.2.2.2.2⟩

/-- C2.  For every pair of thresholds, the classified output is NaN exactly at
the pixels where the anomaly input is NaN: the classification preserves the
nodata footprint of the anomaly raster. -/
theorem threshold_classification_nodata_footprint (minC maxC : ℚ) (x : FVal) :
    classifyThreshold minC maxC x = none ↔ x = none := by
  cases x with
  | none => simp [classifyThreshold, fisnan, fwhereR]
  | some v =>
    simp only [classifyThreshold, fisnan, flt, fgt, fge, fle, fwhereR, Bool.or_false]
    split_ifs <;> simp

/-- C3.  The anomaly raster equals analysis-index minus baseline-index at every
pixel where both indices carry non-sentinel values and both periods' water
occurrences are values at most 0.4; it is NaN at every other pixel, in
particular wherever either period's water occurrence exceeds 0.4; and the
anomaly of a period against itself is 0 at each of its valid pixels. -/
theorem anomaly_raster_spec (pa wa pb wb : FVal) (va vb w1 w2 : ℚ) :
    (pa = some va → va ≠ -9999 → wa = some w1 → w1 ≤ 0.4 →
     pb = some vb → vb ≠ -9999 → wb = some w2 → w2 ≤ 0.4 →
     parameterAnomaly pa wa pb wb = some (va - vb)) ∧
    (¬ validIdx pa wa ∨ ¬ validIdx pb wb → parameterAnomaly pa wa pb wb = none) ∧
    (wa = some w1 → 0.4 < w1 → parameterAnomaly pa wa pb wb = none) ∧
    (wb = some w2 → 0.4 < w2 → parameterAnomaly pa wa pb wb = none) ∧
    (pa = some va → va ≠ -9999 → wa = some w1 → w1 ≤ 0.4 →
     parameterAnomaly pa wa pa wa = some 0) := by
  refine ⟨?_, ?_, ?_, ?_, ?_⟩
  · intro h1 h2 h3 h4 h5 h6 h7 h8
    rw [parameterAnomaly, vegMask_some pa wa va w1 h1 h2 h3 h4,
      vegMask_some pb wb vb w2 h5 h6 h7 h8]
    rfl
  · intro h
    cases h with
    | inl h => rw [parameterAnomaly, vegMask_none pa wa h, fsub_none_left]
    | inr h => rw [parameterAnomaly, vegMask_none pb wb h, fsub_none_right]
  · intro hw hgt
    have : ¬ validIdx pa wa := by
      rintro ⟨v, w', _, _, hw', hle⟩
      rw [hw] at hw'
      cases hw'
      linarith
    rw [parameterAnomaly, vegMask_none pa wa this, fsub_none_left]
  · intro hw hgt
    have : ¬ validIdx pb wb := by
      rintro ⟨v, w', _, _, hw', hle⟩
      rw [hw] at hw'
      cases hw'
      linarith
    rw [parameterAnomaly, vegMask_none pb wb this, fsub_none_right]
  · intro h1 h2 h3 h4
    rw [parameterAnomaly, vegMask_some pa wa va w1 h1 h2 h3 h4]
    simp [fsub]

/-- Witness for C3 at concrete pixels. -/
theorem anomaly_raster_spec_witness :
    parameterAnomaly (some 0.5) (some 0.1) (some 0.3) (some 0.2) = some 0.2 ∧
    parameterAnomaly (some 0.5) (some 0.5) (some 0.3) (some 0.2) = none ∧
    parameterAnomaly (some 0.5) (some 0.1) (some 0.5) (some 0.1) = some 0 := by
  refine ⟨?_, ?_, ?_⟩
  · have h := (anomaly_raster_spec (some 0.5) (some 0.1) (some 0.3) (some 0.2)
      0.5 0.3 0.1 0.2).1 rfl (by norm_num) rfl (by norm_num) rfl (by norm_num)
      rfl (by norm_num)
    rw [h]
    norm_num
  · exact (anomaly_raster_spec (some 0.5) (some 0.5) (some 0.3) (some 0.2)
      0.5 0.3 0.5 0.2).2.2.1 rfl (by norm_num)
  · exact (anomaly_raster_spec (some 0.5) (some 0.1) (some 0.5) (some 0.1)
      0.5 0.5 0.1 0.1).2.2.2.2 rfl (by norm_num) rfl (by norm_num)

/-!
Water-change re-quantization (`water_change.py`, `WaterChange.generate_product`,
lines 157-176):

    waterpres_prob = 0.3
    T0_nd_water = np.isnan(wc_baseline_mean)
    wc_baseline_rc_int = wc_baseline_mean.where(
        (wc_baseline_mean < waterpres_prob) | (T0_nd_water == True), 1)
    wc_baseline_rc = wc_baseline_rc_int.where(
        (wc_baseline_rc_int >= waterpres_prob) | (T0_nd_water == True), 0)
    ... (same for the analysis period) ...
    difference = wc_analysis_rc - wc_baseline_rc
-/

/-- The separate binarization threshold used by the water-change analysis. -/
def waterpresProb : ℚ := 0.3

/-- Per-pixel re-quantization of a period's mean water occurrence to a binary
water (1) / no-water (0) raster, as in `WaterChange.generate_product`. -/
def requantizeWater (m : FVal) : FVal :=
  let nd := fisnan m
  let rcInt := fwhereR m (flt m (some waterpresProb) || nd) 1
  fwhereR rcInt (fge rcInt (some waterpresProb) || nd) 0

/-- The water-change difference raster: analysis binary minus baseline binary. -/
def waterChangeDifference (mAnalysis mBaseline : FVal) : FVal :=
  fsub (requantizeWater mAnalysis) (requantizeWater mBaseline)

-- Helper: closed form of the re-quantization.
theorem requantizeWater_some (m : ℚ) :
    requantizeWater (some m) = some (if waterpresProb ≤ m then 1 else 0) := by
  by_cases h : waterpresProb ≤ m
  · have : ¬ m < waterpresProb := not_lt.mpr h
    simp [requantizeWater, fisnan, fwhereR, flt_some, fge_some, this, h]
    norm_num [waterpresProb]
  · have hm : m < waterpresProb := not_le.mp h
    simp [requantizeWater, fisnan, fwhereR, flt_some, fge_some, hm, h]

theorem requantizeWater_nan : requantizeWater none = none := rfl

/-- C5.  Each period's mean water occurrence is re-quantized at threshold 0.3:
a valid occurrence `m` becomes water (1) when `m ≥ 0.3` and no-water (0) when
`m < 0.3`, NaN occurrences stay NaN, and the output difference is the analysis
binary raster minus the baseline binary raster. -/
theorem water_change_requantization (ma mb : FVal) (va vb : ℚ) :
    (ma = some va → 0.3 ≤ va → requantizeWater ma = some 1) ∧
    (ma = some va → va < 0.3 → requantizeWater ma = some 0) ∧
    requantizeWater none = none ∧
    (ma = some va → mb = some vb → waterChangeDifference ma mb =
      some ((if 0.3 ≤ va then 1 else 0) - (if 0.3 ≤ vb then 1 else 0))) ∧
    (ma = none → waterChangeDifference ma mb = none) ∧
    (mb = none → waterChangeDifference ma mb = none) := by
  refine ⟨?_, ?_, rfl, ?_, ?_, ?_⟩
  · rintro rfl h
    rw [requantizeWater_some, if_pos (by simpa [waterpresProb] using h)]
  · rintro rfl h
    rw [requantizeWater_some, if_neg (by simp [waterpresProb] ; linarith)]
  · rintro rfl rfl
    rw [waterChangeDifference, requantizeWater_some, requantizeWater_some]
    simp only [waterpresProb, fsub]
  · rintro rfl
    rw [waterChangeDifference, requantizeWater_nan, fsub_none_left]
  · rintro rfl
    rw [waterChangeDifference, requantizeWater_nan, fsub_none_right]

/-- Witness for C5 at concrete occurrences. -/
theorem water_change_requantization_witness :
    requantizeWater (some 0.7) = some 1 ∧
    requantizeWater (some 0.1) = some 0 ∧
    waterChangeDifference (some 0.7) (some 0.1) = some 1 ∧
    waterChangeDifference none (some 0.1) = none := by
  refine ⟨?_, ?_, ?_, ?_⟩
  · exact (water_change_requantization (some 0.7) (some 0.1) 0.7 0.1).1 rfl (by norm_num)
  · exact (water_change_requantization (some 0.1) (some 0.7) 0.1 0.7).2.1 rfl (by norm_num)
  · have h := (water_change_requantization (some 0.7) (some 0.1) 0.7 0.1).2.2.2.1 rfl rfl
    rw [h]
    norm_num
  · exact (water_change_requantization none (some 0.1) 0 0.1).2.2.2.2.1 rfl

/-!
Water occurrence (`water_permanency.py`, `WaterPermanency.generate_product`,
lines 96-97, and `vegetation_change.py`, lines 255-262 and 282-287):

    water = ds.where(ds != -9999)
    water_composite_mean = water.water.mean(dim="time")

and, in the change tasks,

    water_scenes = water_scenes.where(water_scenes >= 0)
    water_composite = water_scenes.water_classification.mean(dim="time")

`mean(dim="time")` skips NaN cells and yields NaN when every cell is NaN.
-/

/-- Sum of the non-NaN cells of a pixel's time series. -/
def nansum : List FVal → ℚ
  | [] => 0
  | none :: t => nansum t
  | some v :: t => v + nansum t

/-- Number of non-NaN cells of a pixel's time series. -/
def nancount : List FVal → ℕ
  | [] => 0
  | none :: t => nancount t
  | some _ :: t => 1 + nancount t

/-- `mean(dim="time")` of one pixel's time series: the mean of the non-NaN
cells, NaN when there are none. -/
def meanSkipNA (xs : List FVal) : FVal :=
  if nancount xs = 0 then none else some (nansum xs / (nancount xs : ℚ))

/-- `x.where(x != -9999)`: turn the -9999 nodata sentinel into NaN. -/
def maskSentinel (x : FVal) : FVal :=
  fwhere x (fne x (some (-9999)))

/-- `x.where(x >= 0)`: keep non-negative classifications, NaN elsewhere. -/
def maskNonNeg (x : FVal) : FVal :=
  fwhere x (fge x (some 0))

/-- Per-pixel water occurrence of `WaterPermanency.generate_product`. -/
def waterPermanencyOccurrence (xs : List FVal) : FVal :=
  meanSkipNA (xs.map maskSentinel)

/-- Per-pixel water occurrence of the change tasks (`vegetation_change.py`). -/
def vegetationWaterOccurrence (xs : List FVal) : FVal :=
  meanSkipNA (xs.map maskNonNeg)

/-- The valid (non-NaN, non-sentinel) classifications of a pixel's series. -/
def validSentinel (xs : List FVal) : List ℚ :=
  xs.filterMap fun x => match x with
    | some v => if v = -9999 then none else some v
    | none => none

/-- The valid (non-NaN, non-negative) classifications of a pixel's series. -/
def validNonNeg (xs : List FVal) : List ℚ :=
  xs.filterMap fun x => match x with
    | some v => if 0 ≤ v then some v else none
    | none => none

-- Helper: the masked series has exactly the valid cells.
theorem nansum_map_maskSentinel (xs : List FVal) :
    nansum (xs.map maskSentinel) = (validSentinel xs).sum := by
  induction xs with
  | nil => rfl
  | cons x t ih =>
    cases x with
    | none => simpa [validSentinel, maskSentinel, fwhere, fne, nansum, List.filterMap_cons]
        using ih
    | some v =>
      by_cases hv : v = -9999
      · subst hv
        simpa [validSentinel, maskSentinel, fwhere, fne, nansum, List.filterMap_cons]
          using ih
      · simp only [validSentinel, maskSentinel, fwhere, fne, List.map_cons,
          List.filterMap_cons] at *
        simp [hv, nansum, ih]

theorem nancount_map_maskSentinel (xs : List FVal) :
    nancount (xs.map maskSentinel) = (validSentinel xs).length := by
  induction xs with
  | nil => rfl
  | cons x t ih =>
    cases x with
    | none => simpa [validSentinel, maskSentinel, fwhere, fne, nancount, List.filterMap_cons]
        using ih
    | some v =>
      by_cases hv : v = -9999
      · subst hv
        simpa [validSentinel, maskSentinel, fwhere, fne, nancount, List.filterMap_cons]
          using ih
      · simp only [validSentinel, maskSentinel, fwhere, fne, List.map_cons,
          List.filterMap_cons] at *
        simp [hv, nancount, ih]
        omega

theorem nansum_map_maskNonNeg (xs : List FVal) :
    nansum (xs.map maskNonNeg) = (validNonNeg xs).sum := by
  induction xs with
  | nil => rfl
  | cons x t ih =>
    cases x with
    | none => simpa [validNonNeg, maskNonNeg, fwhere, fge, nansum, List.filterMap_cons]
        using ih
    | some v =>
      by_cases hv : 0 ≤ v
      · simp only [validNonNeg, maskNonNeg, fwhere, fge_some, List.map_cons,
          List.filterMap_cons] at *
        simp [hv, nansum, ih]
      · simp only [validNonNeg, maskNonNeg, fwhere, fge_some, List.map_cons,
          List.filterMap_cons] at *
        simp [hv, nansum, ih]

theorem nancount_map_maskNonNeg (xs : List FVal) :
    nancount (xs.map maskNonNeg) = (validNonNeg xs).length := by
  induction xs with
  | nil => rfl
  | cons x t ih =>
    cases x with
    | none => simpa [validNonNeg, maskNonNeg, fwhere, fge, nancount, List.filterMap_cons]
        using ih
    | some v =>
      by_cases hv : 0 ≤ v
      · simp only [validNonNeg, maskNonNeg, fwhere, fge_some, List.map_cons,
          List.filterMap_cons] at *
        simp [hv, nancount, ih]
        omega
      · simp only [validNonNeg, maskNonNeg, fwhere, fge_some, List.map_cons,
          List.filterMap_cons] at *
        simp [hv, nancount, ih]

/-- C4.  Water occurrence is the temporal mean of the valid (non-nodata)
classifications of the pixel; a pixel that is nodata at every time step yields
NaN, not zero, and conversely a NaN occurrence only arises from an all-nodata
series. Both the `-9999`-sentinel variant (water permanency) and the
negative-classification variant (change tasks) are covered. -/
theorem water_occurrence_mean (xs : List FVal) :
    ((∀ x ∈ xs, x = none ∨ x = some (-9999)) → waterPermanencyOccurrence xs = none) ∧
    (validSentinel xs ≠ [] → waterPermanencyOccurrence xs =
      some ((validSentinel xs).sum / ((validSentinel xs).length : ℚ))) ∧
    (waterPermanencyOccurrence xs = none → ∀ x ∈ xs, x = none ∨ x = some (-9999)) ∧
    ((∀ x ∈ xs, x = none ∨ ∃ v, x = some v ∧ v < 0) → vegetationWaterOccurrence xs = none) ∧
    (validNonNeg xs ≠ [] → vegetationWaterOccurrence xs =
      some ((validNonNeg xs).sum / ((validNonNeg xs).length : ℚ))) := by
  have hvs : validSentinel xs = [] ↔ ∀ x ∈ xs, x = none ∨ x = some (-9999) := by
    constructor
    · intro h x hx
      cases x with
      | none => exact Or.inl rfl
      | some v =>
        by_cases hv : v = -9999
        · exact Or.inr (by rw [hv])
        · exfalso
          have : v ∈ validSentinel xs := by
            simp only [validSentinel, List.mem_filterMap]
            exact ⟨some v, hx, by simp [hv]⟩
          simp [h] at this
    · intro h
      simp only [validSentinel, List.filterMap_eq_nil_iff]
      intro x hx
      rcases h x hx with rfl | rfl
      · rfl
      · simp
  have hvn : validNonNeg xs = [] ↔ ∀ x ∈ xs, x = none ∨ ∃ v, x = some v ∧ v < 0 := by
    constructor
    · intro h x hx
      cases x with
      | none => exact Or.inl rfl
      | some v =>
        by_cases hv : 0 ≤ v
        · exfalso
          have : v ∈ validNonNeg xs := by
            simp only [validNonNeg, List.mem_filterMap]
            exact ⟨some v, hx, by simp [hv]⟩
          simp [h] at this
        · exact Or.inr ⟨v, rfl, not_le.mp hv⟩
    · intro h
      simp only [validNonNeg, List.filterMap_eq_nil_iff]
      intro x hx
      rcases h x hx with rfl | ⟨v, rfl, hv⟩
      · rfl
      · simp [not_le.mpr hv]
  refine ⟨?_, ?_, ?_, ?_, ?_⟩
  · intro h
    have : validSentinel xs = [] := hvs.mpr h
    simp [waterPermanencyOccurrence, meanSkipNA, nancount_map_maskSentinel, this]
  · intro h
    have hne : (validSentinel xs).length ≠ 0 := by
      simpa [List.length_eq_zero] using h
    simp [waterPermanencyOccurrence, meanSkipNA, nancount_map_maskSentinel,
      nansum_map_maskSentinel, hne]
  · intro h
    apply hvs.mp
    by_contra hne
    have hlen : (validSentinel xs).length ≠ 0 := by
      simpa [List.length_eq_zero] using hne
    simp [waterPermanencyOccurrence, meanSkipNA, nancount_map_maskSentinel, hlen] at h
  · intro h
    have : validNonNeg xs = [] := hvn.mpr h
    simp [vegetationWaterOccurrence, meanSkipNA, nancount_map_maskNonNeg, this]
  · intro h
    have hne : (validNonNeg xs).length ≠ 0 := by
      simpa [List.length_eq_zero] using h
    simp [vegetationWaterOccurrence, meanSkipNA, nancount_map_maskNonNeg,
      nansum_map_maskNonNeg, hne]

/-- Witness for C4 at a concrete 4-step series. -/
theorem water_occurrence_mean_witness :
    waterPermanencyOccurrence [none, some (-9999)] = none ∧
    waterPermanencyOccurrence [some 1, none, some (-9999), some 0] = some (1 / 2) ∧
    vegetationWaterOccurrence [none, some (-2)] = none := by
  refine ⟨?_, ?_, ?_⟩
  · exact (water_occurrence_mean [none, some (-9999)]).1 (by decide)
  · have h := (water_occurrence_mean [some 1, none, some (-9999), some 0]).2.1 (by decide)
    rw [h]
    norm_num [validSentinel, List.filterMap_cons]
  · exact (water_occurrence_mean [none, some (-2)]).2.2.2.1 (by norm_num)

/-!
Composite water masking (`fractional_cover.py`, lines 159-161, and
`ndvi_anomaly.py`, lines 239-244):

    frac_cov_masked = frac_classes.where(
        (frac_classes != np.nan) & (water_composite_mean <= 0.4))

    baseline_composite = baseline_composite.where(
        (baseline_composite != np.nan) & (water_composite_base == 0))

`x != np.nan` compares against the NaN scalar, which is true for every cell.
-/

/-- The fractional-cover masking step exactly as written in the source:
composite-validity conjunct and water-occurrence conjunct. -/
def maskCompositeFC (fc w : FVal) : FVal :=
  fwhere fc (fne fc none && fle w (some 0.4))

/-- Masking with the water-occurrence condition alone (the spec's reading). -/
def maskWaterOnlyFC (fc w : FVal) : FVal :=
  fwhere fc (fle w (some 0.4))

/-- The NDVI-anomaly composite masking step exactly as written in the source. -/
def maskCompositeNdvi (comp w : FVal) : FVal :=
  fwhere comp (fne comp none && feq w (some 0))

/-- Masking with the water-occurrence condition alone (the spec's reading). -/
def maskWaterOnlyNdvi (comp w : FVal) : FVal :=
  fwhere comp (feq w (some 0))

/-- C10.  `composite != np.nan` holds for every cell, NaN included, so each
composite-masking step is pointwise equal to masking with its water-occurrence
condition alone: the composite-validity conjunct never excludes a pixel. -/
theorem composite_nan_conjunct_vacuous (a w : FVal) :
    fne a none = true ∧
    maskCompositeFC a w = maskWaterOnlyFC a w ∧
    maskCompositeNdvi a w = maskWaterOnlyNdvi a w := by
  have h : fne a none = true := by cases a <;> rfl
  exact ⟨h, by rw [maskCompositeFC, maskWaterOnlyFC, h, Bool.true_and],
    by rw [maskCompositeNdvi, maskWaterOnlyNdvi, h, Bool.true_and]⟩

/-!
Geomedian reducer configuration (`utils.py`, `geomedian`, lines 66-88, and the
inline copies in `land_change.py`, `LandChange.generate_product`, lines
206-233):

    scale, offset = (1 / 10_000, 0)
    xx_clean = odc.algo.to_f32(xx_clean, scale=scale, offset=offset)
    yy = odc.algo.xr_geomedian(xx_clean, num_threads=1, eps=0.2 * scale, nocheck=True)
    yy = odc.algo.from_float(yy, dtype="int16", nodata=-9999,
                             scale=1 / scale, offset=-offset / scale)
-/

/-- The arguments each robust-median call site passes to the normalization,
the solver and the integer conversion. -/
structure GeomedianConfig where
  normScale : ℚ
  normOffset : ℚ
  solverNumThreads : ℕ
  solverEps : ℚ
  solverNocheck : Bool
  outDtype : String
  outNodata : ℤ
  outScale : ℚ
  outOffset : ℚ

/-- The call arguments of `geomedian` in `utils.py`. -/
def utilsGeomedianConfig : GeomedianConfig :=
  let scale : ℚ := 1 / 10000
  let offset : ℚ := 0
  { normScale := scale
    normOffset := offset
    solverNumThreads := 1
    solverEps := 0.2 * scale
    solverNocheck := true
    outDtype := "int16"
    outNodata := -9999
    outScale := 1 / scale
    outOffset := -offset / scale }

/-- The call arguments of the baseline-composite geomedian in `land_change.py`. -/
def landChangeBaselineGeomedianConfig : GeomedianConfig :=
  let scale : ℚ := 1 / 10000
  let offset : ℚ := 0
  { normScale := scale
    normOffset := offset
    solverNumThreads := 1
    solverEps := 0.2 * scale
    solverNocheck := true
    outDtype := "int16"
    outNodata := -9999
    outScale := 1 / scale
    outOffset := -offset / scale }

/-- The call arguments of the analysis-composite geomedian in `land_change.py`. -/
def landChangeAnalysisGeomedianConfig : GeomedianConfig :=
  let scale : ℚ := 1 / 10000
  let offset : ℚ := 0
  { normScale := scale
    normOffset := offset
    solverNumThreads := 1
    solverEps := 0.2 * scale
    solverNocheck := true
    outDtype := "int16"
    outNodata := -9999
    outScale := 1 / scale
    outOffset := -offset / scale }

/-- C8.  Every robust-median invocation normalizes with scale 1/10000 and
offset 0, calls the solver with tolerance eps equal to 0.2 times that scale
and with internal threading disabled (one thread), and converts the result to
int16 with nodata -9999 using the inverse scale and zero offset. -/
theorem geomedian_invocation_config :
    utilsGeomedianConfig.normScale = 1 / 10000 ∧
    utilsGeomedianConfig.normOffset = 0 ∧
    utilsGeomedianConfig.solverEps = 0.2 * utilsGeomedianConfig.normScale ∧
    utilsGeomedianConfig.solverNumThreads = 1 ∧
    utilsGeomedianConfig.outDtype = "int16" ∧
    utilsGeomedianConfig.outNodata = -9999 ∧
    utilsGeomedianConfig.outScale = (utilsGeomedianConfig.normScale)⁻¹ ∧
    utilsGeomedianConfig.outScale * utilsGeomedianConfig.normScale = 1 ∧
    utilsGeomedianConfig.outOffset = 0 ∧
    landChangeBaselineGeomedianConfig = utilsGeomedianConfig ∧
    landChangeAnalysisGeomedianConfig = utilsGeomedianConfig := by
  refine ⟨rfl, rfl, rfl, rfl, rfl, rfl, ?_, by norm_num [utilsGeomedianConfig], ?_, rfl, rfl⟩
  · show (1 : ℚ) / (1 / 10000) = ((1 : ℚ) / 10000)⁻¹
    norm_num
  · show -(0 : ℚ) / (1 / 10000) = 0
    norm_num

/-!
Datacube query construction (`utils.py`, `create_base_query`, lines 9-33, and
the inline copy in `ndvi_anomaly.py`, lines 122-157):

    lat_extents, lon_extents = create_lat_lon(aoi)
    inProj = Proj("+init=EPSG:4326")
    outProj = Proj("+init=EPSG:3460")
    x_A, y_A = transform(inProj, outProj, min_lon, min_lat)
    x_B, y_B = transform(inProj, outProj, max_lon, max_lat)
    resolution = (-res, res)
    query = {"y": (y_A, y_B), "x": (x_A, x_B), "output_crs": output_projection,
             "resolution": resolution, "dask_chunks": dask_chunks, "crs": aoi_crs}

The external `pyproj.transform` and `create_lat_lon` collaborators are
parameters of the embedding: `transformFn inProj outProj x y` returns the
projected `(x, y)` pair, and the AOI's lat/lon extents are passed directly.
-/

/-- The query dictionary built by `create_base_query`. -/
structure BaseQuery where
  y : ℚ × ℚ
  x : ℚ × ℚ
  output_crs : String
  resolution : ℚ × ℚ
  dask_chunks : List (String × ℕ)
  crs : String

/-- `create_base_query` from `utils.py`, over an abstract projection
transform. -/
def create_base_query (transformFn : String → String → ℚ → ℚ → ℚ × ℚ)
    (latExtents lonExtents : ℚ × ℚ) (res : ℚ)
    (output_projection aoi_crs : String) (dask_chunks : List (String × ℕ)) :
    BaseQuery :=
  let inProj := "+init=EPSG:4326"
  let outProj := "+init=EPSG:3460"
  let min_lat := latExtents.1
  let max_lat := latExtents.2
  let min_lon := lonExtents.1
  let max_lon := lonExtents.2
  let A := transformFn inProj outProj min_lon min_lat
  let B := transformFn inProj outProj max_lon max_lat
  { y := (A.2, B.2)
    x := (A.1, B.1)
    output_crs := output_projection
    resolution := (-res, res)
    dask_chunks := dask_chunks
    crs := aoi_crs }

/-- The query dictionary built inline by `NDVIAnomaly.generate_product`. -/
def ndviAnomalyQuery (transformFn : String → String → ℚ → ℚ → ℚ × ℚ)
    (latExtents lonExtents : ℚ × ℚ) (res : ℚ)
    (projection crs : String) (dask_chunks : List (String × ℕ)) : BaseQuery :=
  let inProj := "+init=EPSG:4326"
  let outProj := "+init=EPSG:3460"
  let min_lat := latExtents.1
  let max_lat := latExtents.2
  let min_lon := lonExtents.1
  let max_lon := lonExtents.2
  let A := transformFn inProj outProj min_lon min_lat
  let B := transformFn inProj outProj max_lon max_lat
  { y := (A.2, B.2)
    x := (A.1, B.1)
    output_crs := projection
    resolution := (-res, res)
    dask_chunks := dask_chunks
    crs := crs }

/-- C9.  `create_base_query` projects the AOI extents with the hard-coded
EPSG:4326 → EPSG:3460 projections regardless of `aoi_crs` and
`output_projection` (those only populate the `crs` and `output_crs` entries),
and the returned resolution is always `(-res, res)`; the inline query of
`NDVIAnomaly.generate_product` builds the same dictionary. -/
theorem create_base_query_spec (transformFn : String → String → ℚ → ℚ → ℚ × ℚ)
    (latExtents lonExtents : ℚ × ℚ) (res : ℚ)
    (p p' c c' : String) (dk dk' : List (String × ℕ)) :
    (create_base_query transformFn latExtents lonExtents res p c dk).crs = c ∧
    (create_base_query transformFn latExtents lonExtents res p c dk).output_crs = p ∧
    (create_base_query transformFn latExtents lonExtents res p c dk).resolution
      = (-res, res) ∧
    (create_base_query transformFn latExtents lonExtents res p c dk).x =
      ((transformFn "+init=EPSG:4326" "+init=EPSG:3460" lonExtents.1 latExtents.1).1,
       (transformFn "+init=EPSG:4326" "+init=EPSG:3460" lonExtents.2 latExtents.2).1) ∧
    (create_base_query transformFn latExtents lonExtents res p c dk).y =
      ((transformFn "+init=EPSG:4326" "+init=EPSG:3460" lonExtents.1 latExtents.1).2,
       (transformFn "+init=EPSG:4326" "+init=EPSG:3460" lonExtents.2 latExtents.2).2) ∧
    (create_base_query transformFn latExtents lonExtents res p c dk).x =
      (create_base_query transformFn latExtents lonExtents res p' c' dk').x ∧
    (create_base_query transformFn latExtents lonExtents res p c dk).y =
      (create_base_query transformFn latExtents lonExtents res p' c' dk').y ∧
    ndviAnomalyQuery transformFn latExtents lonExtents res p c dk =
      create_base_query transformFn latExtents lonExtents res p c dk :=
  ⟨rfl, rfl, rfl, rfl, rfl, rfl, rfl, rfl⟩

/-!
Platform dispatch (`utils.py`, `create_product_measurement`, lines 36-52; an
identical copy sits at `ndvi_anomaly.py`, lines 273-289):

    if platform in ["SENTINEL_2"]:
        product = "s2_esa_sr_granule"
        measurements = all_measurements + ["coastal_aerosol", "scene_classification"]
        water_product = "SENTINEL_2_PRODUCT DEFS"
    else:
        product_match = re.search("LANDSAT_(\d)", platform)
        if product_match:
            product = f"ls{product_match.group(1)}_usgs_sr_scene"
            measurements = all_measurements + ["pixel_qa"]
            water_product = f"ls{product_match.group(1)}_water_classification"
        else:
            raise Exception(f"invalid platform_name {platform}")

`re.search` scans for the leftmost position where the fixed pattern
`LANDSAT_` followed by one digit matches, and `group(1)` is that digit.
-/

/-- The literal part of the pattern `LANDSAT_(\d)`. -/
def landsatPat : List Char := ['L', 'A', 'N', 'D', 'S', 'A', 'T', '_']

/-- Whether the first list is an initial segment of the second. -/
def headSegment : List Char → List Char → Bool
  | [], _ => true
  | _ :: _, [] => false
  | p :: ps, c :: cs => p == c && headSegment ps cs

/-- Match of `LANDSAT_(\d)` anchored at the front of `s`: the captured digit. -/
def landsatAt (s : List Char) : Option Char :=
  if headSegment landsatPat s then
    match s.drop landsatPat.length with
    | d :: _ => if d.isDigit then some d else none
    | [] => none
  else none

/-- `re.search("LANDSAT_(\d)", s)`: the digit of the leftmost match, if any. -/
def findLandsatDigit : List Char → Option Char
  | [] => none
  | c :: rest =>
    match landsatAt (c :: rest) with
    | some d => some d
    | none => findLandsatDigit rest

/-- `create_product_measurement` from `utils.py`; raising is modelled as
`Except.error` carrying the exception message. -/
def create_product_measurement (platform : String) (all_measurements : List String) :
    Except String (String × List String × String) :=
  if platform = "SENTINEL_2" then
    Except.ok ("s2_esa_sr_granule",
      all_measurements ++ ["coastal_aerosol", "scene_classification"],
      "SENTINEL_2_PRODUCT DEFS")
  else
    match findLandsatDigit platform.data with
    | some d =>
      Except.ok ("ls" ++ String.mk [d] ++ "_usgs_sr_scene",
        all_measurements ++ ["pixel_qa"],
        "ls" ++ String.mk [d] ++ "_water_classification")
    | none => Except.error ("invalid platform_name " ++ platform)

/-- A string contains `LANDSAT_` immediately followed by a digit. -/
def hasLandsatDigit (s : String) : Prop :=
  ∃ pre d post, s.data = pre ++ landsatPat ++ d :: post ∧ d.isDigit = true

-- Helper: characterization of the anchored and searched matches.
theorem headSegment_iff (p s : List Char) :
    headSegment p s = true ↔ ∃ t, s = p ++ t := by
  induction p generalizing s with
  | nil => simp [headSegment]
  | cons a ps ih =>
    cases s with
    | nil => simp [headSegment]
    | cons c cs =>
      simp only [headSegment, Bool.and_eq_true, beq_iff_eq, ih, List.cons_append,
        List.cons.injEq]
      constructor
      · rintro ⟨rfl, t, rfl⟩
        exact ⟨t, rfl, rfl⟩
      · rintro ⟨t, rfl, rfl⟩
        exact ⟨rfl, t, rfl⟩

theorem drop_len_append (p t : List Char) : (p ++ t).drop p.length = t := by
  induction p with
  | nil => rfl
  | cons a p ih => simp [ih]

theorem landsatAt_some (s : List Char) (d : Char) (h : landsatAt s = some d) :
    ∃ post, s = landsatPat ++ d :: post ∧ d.isDigit = true := by
  rw [landsatAt] at h
  split_ifs at h with hp
  · obtain ⟨t, rfl⟩ := (headSegment_iff landsatPat s).mp hp
    rw [drop_len_append] at h
    cases t with
    | nil => exact absurd h (by simp)
    | cons d' post =>
      by_cases hd : d'.isDigit
      · simp only [hd, if_true] at h
        cases h
        exact ⟨post, rfl, hd⟩
      · simp [hd] at h

theorem landsatAt_of (d : Char) (post : List Char) (hd : d.isDigit = true) :
    landsatAt (landsatPat ++ d :: post) = some d := by
  have hp : headSegment landsatPat (landsatPat ++ d :: post) = true :=
    (headSegment_iff _ _).mpr ⟨d :: post, rfl⟩
  rw [landsatAt, if_pos hp, drop_len_append]
  simp [hd]

theorem findLandsatDigit_some (s : List Char) (d : Char)
    (h : findLandsatDigit s = some d) :
    ∃ pre post, s = pre ++ landsatPat ++ d :: post ∧ d.isDigit = true := by
  induction s with
  | nil => exact absurd h (by simp [findLandsatDigit])
  | cons c rest ih =>
    rw [findLandsatDigit] at h
    cases hat : landsatAt (c :: rest) with
    | some d' =>
      rw [hat] at h
      cases h
      obtain ⟨post, heq, hdig⟩ := landsatAt_some _ _ hat
      exact ⟨[], post, by simpa using heq, hdig⟩
    | none =>
      rw [hat] at h
      obtain ⟨pre, post, heq, hdig⟩ := ih h
      exact ⟨c :: pre, post, by simp [heq], hdig⟩

theorem findLandsatDigit_pat (d : Char) (hd : d.isDigit = true) :
    findLandsatDigit (landsatPat ++ [d]) = some d := by
  have : landsatPat ++ [d] = 'L' :: (['A', 'N', 'D', 'S', 'A', 'T', '_'] ++ [d]) := rfl
  rw [this, findLandsatDigit]
  have hat : landsatAt ('L' :: (['A', 'N', 'D', 'S', 'A', 'T', '_'] ++ [d])) = some d :=
    landsatAt_of d [] hd
  rw [hat]

/-!
Call order of `create_product_measurement` against `dc.load` in each task's
`generate_product`.  A task is embedded as the sequence of its
`create_product_measurement` calls and its `dc.load` calls, in program order;
an exception truncates the sequence at the raising call.  Empty-dataset and
unsupported-platform aborts occur only after all `create_product_measurement`
calls, so they do not affect this order.  `archive_access.py` fails to parse
(its `generate_product` body is mis-indented), so it has no runnable task and
no trace.
-/

/-- One collaborator call of a task body. -/
inductive TaskEvent where
  | cpm (platform : String)
  | load (product : String)
deriving DecidableEq

/-- Whether a `create_product_measurement` call happens strictly before any
`dc.load` call of the trace (vacuously true when nothing is loaded). -/
def callsCpmBeforeAnyLoad : List TaskEvent → Bool
  | [] => true
  | TaskEvent.cpm _ :: _ => true
  | TaskEvent.load _ :: _ => false

/-- `map_satellite` from `annual_data_products.py`; a missing dictionary key
(KeyError) is modelled as `none`. -/
def map_satellite (platform : String) : Option String :=
  if platform = "LANDSAT_4" then some "ls4"
  else if platform = "LANDSAT_5" then some "ls5"
  else if platform = "LANDSAT_7" then some "ls7"
  else if platform = "LANDSAT_8" then some "ls8"
  else none

/-- Program-order trace of `AggregateIndices.generate_product`. -/
def aggregateIndicesTrace (platform : String) (ms : List String) : List TaskEvent :=
  match create_product_measurement platform ms with
  | Except.ok (product, _, _) => [TaskEvent.cpm platform, TaskEvent.load product]
  | Except.error _ => [TaskEvent.cpm platform]

/-- Program-order trace of `AnnualDataProducts.generate_product`: the product
name comes from `map_satellite`, and `create_product_measurement` is never
called. -/
def annualDataProductsTrace (platform product : String) : List TaskEvent :=
  match map_satellite platform with
  | some s => [TaskEvent.load (s ++ "_" ++ product ++ "_annual")]
  | none => []

/-- Program-order trace of `FractionalCover.generate_product`. -/
def fractionalCoverTrace (platform : String) (ms : List String) : List TaskEvent :=
  match create_product_measurement platform ms with
  | Except.ok (product, _, waterProduct) =>
    [TaskEvent.cpm platform, TaskEvent.load product, TaskEvent.load waterProduct]
  | Except.error _ => [TaskEvent.cpm platform]

/-- Program-order trace of `LandChange.generate_product`; the water loads only
happen for Landsat baseline platforms. -/
def landChangeTrace (pb pa : String) (ms : List String) : List TaskEvent :=
  match create_product_measurement pb ms with
  | Except.error _ => [TaskEvent.cpm pb]
  | Except.ok (bp, _, bwp) =>
    match create_product_measurement pa ms with
    | Except.error _ => [TaskEvent.cpm pb, TaskEvent.cpm pa]
    | Except.ok (ap, _, awp) =>
      if pb = "LANDSAT_8" ∨ pb = "LANDSAT_7" ∨ pb = "LANDSAT_5" ∨ pb = "LANDSAT_4" then
        [TaskEvent.cpm pb, TaskEvent.cpm pa, TaskEvent.load bp, TaskEvent.load ap,
         TaskEvent.load bwp, TaskEvent.load awp]
      else
        [TaskEvent.cpm pb, TaskEvent.cpm pa, TaskEvent.load bp, TaskEvent.load ap]

/-- Program-order trace of `NDVIAnomaly.generate_product`; the water loads
only happen for Landsat baseline platforms. -/
def ndviAnomalyTrace (pb pa : String) (ms : List String) : List TaskEvent :=
  match create_product_measurement pb ms with
  | Except.error _ => [TaskEvent.cpm pb]
  | Except.ok (bp, _, bwp) =>
    match create_product_measurement pa ms with
    | Except.error _ => [TaskEvent.cpm pb, TaskEvent.cpm pa]
    | Except.ok (ap, _, awp) =>
      if pb = "LANDSAT_8" ∨ pb = "LANDSAT_7" ∨ pb = "LANDSAT_5" ∨ pb = "LANDSAT_4" then
        [TaskEvent.cpm pb, TaskEvent.cpm pa, TaskEvent.load bp, TaskEvent.load ap,
         TaskEvent.load bwp, TaskEvent.load awp]
      else
        [TaskEvent.cpm pb, TaskEvent.cpm pa, TaskEvent.load bp, TaskEvent.load ap]

/-- Program-order trace of `VegetationChange.generate_product`. -/
def vegetationChangeTrace (pb pa : String) (ms : List String) : List TaskEvent :=
  match create_product_measurement pb ms with
  | Except.error _ => [TaskEvent.cpm pb]
  | Except.ok (bp, _, bwp) =>
    match create_product_measurement pa ms with
    | Except.error _ => [TaskEvent.cpm pb, TaskEvent.cpm pa]
    | Except.ok (ap, _, awp) =>
      [TaskEvent.cpm pb, TaskEvent.cpm pa, TaskEvent.load bp, TaskEvent.load ap,
       TaskEvent.load bwp, TaskEvent.load awp]

/-- Program-order trace of `WaterChange.generate_product`: the scene loads are
the two water products. -/
def waterChangeTrace (pb pa : String) (ms : List String) : List TaskEvent :=
  match create_product_measurement pb ms with
  | Except.error _ => [TaskEvent.cpm pb]
  | Except.ok (_, _, bwp) =>
    match create_product_measurement pa ms with
    | Except.error _ => [TaskEvent.cpm pb, TaskEvent.cpm pa]
    | Except.ok (_, _, awp) =>
      [TaskEvent.cpm pb, TaskEvent.cpm pa, TaskEvent.load bwp, TaskEvent.load awp]

/-- Program-order trace of `WaterPermanency.generate_product`. -/
def waterPermanencyTrace (platform : String) (ms : List String) : List TaskEvent :=
  match create_product_measurement platform ms with
  | Except.ok (_, _, waterProduct) =>
    [TaskEvent.cpm platform, TaskEvent.load waterProduct]
  | Except.error _ => [TaskEvent.cpm platform]

/-- Program-order trace of `WaterQuality.generate_product`; the water load
only happens for Landsat platforms. -/
def waterQualityTrace (platform : String) (ms : List String) : List TaskEvent :=
  match create_product_measurement platform ms with
  | Except.error _ => [TaskEvent.cpm platform]
  | Except.ok (product, _, waterProduct) =>
    if platform = "LANDSAT_8" ∨ platform = "LANDSAT_7" ∨ platform = "LANDSAT_5" ∨
        platform = "LANDSAT_4" then
      [TaskEvent.cpm platform, TaskEvent.load product, TaskEvent.load waterProduct]
    else
      [TaskEvent.cpm platform, TaskEvent.load product]

/-- C6 counterexample: `AnnualDataProducts` is a task that loads a cube and
never calls `create_product_measurement`, so not every task calls it before
loading. -/
theorem create_product_measurement_call_order_cex :
    annualDataProductsTrace "LANDSAT_8" "geomedian" =
      [TaskEvent.load "ls8_geomedian_annual"] ∧
    callsCpmBeforeAnyLoad (annualDataProductsTrace "LANDSAT_8" "geomedian") = false := by
  constructor <;> rfl

/-- C6 (amended).  `create_product_measurement` raises for every platform that
is neither `SENTINEL_2` nor contains `LANDSAT_` followed by a digit; for a
platform `LANDSAT_n` it returns product `ls{n}_usgs_sr_scene`, the measurement
list extended with `pixel_qa`, and water product `ls{n}_water_classification`;
and every task that uses it (all tasks except `AnnualDataProducts` and the
unparsable `ArchiveAccess`) calls it before loading any cube. -/
theorem create_product_measurement_spec (platform pb pa : String) (ms : List String)
    (d : Char) :
    (platform ≠ "SENTINEL_2" → ¬ hasLandsatDigit platform →
      create_product_measurement platform ms =
        Except.error ("invalid platform_name " ++ platform)) ∧
    (d.isDigit = true →
      create_product_measurement (String.mk (landsatPat ++ [d])) ms =
        Except.ok ("ls" ++ String.mk [d] ++ "_usgs_sr_scene", ms ++ ["pixel_qa"],
          "ls" ++ String.mk [d] ++ "_water_classification")) ∧
    callsCpmBeforeAnyLoad (aggregateIndicesTrace platform ms) = true ∧
    callsCpmBeforeAnyLoad (fractionalCoverTrace platform ms) = true ∧
    callsCpmBeforeAnyLoad (landChangeTrace pb pa ms) = true ∧
    callsCpmBeforeAnyLoad (ndviAnomalyTrace pb pa ms) = true ∧
    callsCpmBeforeAnyLoad (vegetationChangeTrace pb pa ms) = true ∧
    callsCpmBeforeAnyLoad (waterChangeTrace pb pa ms) = true ∧
    callsCpmBeforeAnyLoad (waterPermanencyTrace platform ms) = true ∧
    callsCpmBeforeAnyLoad (waterQualityTrace platform ms) = true := by
  refine ⟨?_, ?_, ?_, ?_, ?_, ?_, ?_, ?_, ?_, ?_⟩
  · intro hne hno
    rw [create_product_measurement, if_neg hne]
    cases hf : findLandsatDigit platform.data with
    | some d' =>
      obtain ⟨pre, post, heq, hdig⟩ := findLandsatDigit_some _ _ hf
      exact absurd ⟨pre, d', post, heq, hdig⟩ hno
    | none => rfl
  · intro hd
    have hne : String.mk (landsatPat ++ [d]) ≠ "SENTINEL_2" := by
      intro h
      have h2 : landsatPat ++ [d] = "SENTINEL_2".data := congrArg String.data h
      have h3 := congrArg List.length h2
      have h4 : "SENTINEL_2".data.length = 10 := rfl
      simp [landsatPat, h4] at h3
    rw [create_product_measurement, if_neg hne]
    have hdata : (String.mk (landsatPat ++ [d])).data = landsatPat ++ [d] := rfl
    rw [hdata, findLandsatDigit_pat d hd]
  · rw [aggregateIndicesTrace]
    rcases h : create_product_measurement platform ms with e | v
    · rfl
    · obtain ⟨a, b, c⟩ := v
      rfl
  · rw [fractionalCoverTrace]
    rcases h : create_product_measurement platform ms with e | v
    · rfl
    · obtain ⟨a, b, c⟩ := v
      rfl
  · rw [landChangeTrace]
    rcases h1 : create_product_measurement pb ms with e | v
    · rfl
    · obtain ⟨a, b, c⟩ := v
      rcases h2 : create_product_measurement pa ms with e' | v'
      · rfl
      · obtain ⟨a', b', c'⟩ := v'
        split_ifs <;> rfl
  · rw [ndviAnomalyTrace]
    rcases h1 : create_product_measurement pb ms with e | v
    · rfl
    · obtain ⟨a, b, c⟩ := v
      rcases h2 : create_product_measurement pa ms with e' | v'
      · rfl
      · obtain ⟨a', b', c'⟩ := v'
        split_ifs <;> rfl
  · rw [vegetationChangeTrace]
    rcases h1 : create_product_measurement pb ms with e | v
    · rfl
    · obtain ⟨a, b, c⟩ := v
      rcases h2 : create_product_measurement pa ms with e' | v'
      · rfl
      · obtain ⟨a', b', c'⟩ := v'
        rfl
  · rw [waterChangeTrace]
    rcases h1 : create_product_measurement pb ms with e | v
    · rfl
    · obtain ⟨a, b, c⟩ := v
      rcases h2 : create_product_measurement pa ms with e' | v'
      · rfl
      · obtain ⟨a', b', c'⟩ := v'
        rfl
  · rw [waterPermanencyTrace]
    rcases h : create_product_measurement platform ms with e | v
    · rfl
    · obtain ⟨a, b, c⟩ := v
      rfl
  · rw [waterQualityTrace]
    rcases h : create_product_measurement platform ms with e | v
    · rfl
    · obtain ⟨a, b, c⟩ := v
      split_ifs <;> rfl

/-- Witness for C6 at the platforms `MODIS` and `LANDSAT_8`. -/
theorem create_product_measurement_spec_witness :
    create_product_measurement "MODIS" [] =
      Except.error ("invalid platform_name " ++ "MODIS") ∧
    create_product_measurement (String.mk (landsatPat ++ ['8'])) ["red"] =
      Except.ok ("ls" ++ String.mk ['8'] ++ "_usgs_sr_scene", ["red", "pixel_qa"],
        "ls" ++ String.mk ['8'] ++ "_water_classification") ∧
    callsCpmBeforeAnyLoad (vegetationChangeTrace "LANDSAT_8" "LANDSAT_7" ["red"]) = true := by
  have h := create_product_measurement_spec "MODIS" "LANDSAT_8" "LANDSAT_7" ["red"] '8'
  refine ⟨?_, ?_, h.2.2.2.2.2.2.1⟩
  · have hno : ¬ hasLandsatDigit "MODIS" := by
      rintro ⟨pre, d', post, heq, hdig⟩
      have h3 := congrArg List.length heq
      have h4 : "MODIS".data.length = 5 := rfl
      simp [landsatPat, h4] at h3
      omega
    exact (create_product_measurement_spec "MODIS" "LANDSAT_8" "LANDSAT_7" [] '8').1
      (by decide) hno
  · exact h.2.1 rfl

/-!
Empty-dataset validation (`utils.py`, `is_dataset_empty`, lines 55-63):

    checks_for_empty = [
        lambda x: len(x.dims) == 0,
        lambda x: len(x.data_vars) == 0,
    ]
    for f in checks_for_empty:
        if f(ds):
            return True
    return False

and its use in `VegetationChange.generate_product`, lines 203-213: the two
scene datasets are checked right after loading and an exception is raised for
an empty one; the two water-classification datasets loaded later are never
checked.
-/

/-- The shape information of an `xarray.Dataset` that `is_dataset_empty`
inspects: its dimension names and its data-variable names. -/
structure Dataset where
  dims : List String
  data_vars : List String
deriving DecidableEq

/-- The check list of `is_dataset_empty`. -/
def checks_for_empty : List (Dataset → Bool) :=
  [fun x => decide (x.dims.length = 0), fun x => decide (x.data_vars.length = 0)]

/-- `is_dataset_empty` from `utils.py`. -/
def is_dataset_empty (ds : Dataset) : Bool :=
  checks_for_empty.any fun f => f ds

/-- The load-and-validate flow of `VegetationChange.generate_product`: the
baseline and analysis scene datasets are checked in order; the water datasets
are parameters of the flow but no check is applied to them. -/
def vegetationChangeEmptyCheck (baseline analysis waterBaseline waterAnalysis : Dataset) :
    Except String Unit :=
  if is_dataset_empty baseline then
    Except.error ("DataCube Load returned an empty Dataset."
      ++ "Please check load parameters for Baseline Dataset!")
  else if is_dataset_empty analysis then
    Except.error ("DataCube Load returned an empty Dataset."
      ++ "Please check load parameters for Analysis Dataset!")
  else
    Except.ok ()

/-- C7 counterexample: with non-empty scene datasets and an empty loaded
water-classification dataset, `VegetationChange` raises no empty-result error,
so the error is not raised exactly when `is_dataset_empty` holds of a loaded
cube. -/
theorem empty_result_error_cex :
    vegetationChangeEmptyCheck ⟨["time"], ["red"]⟩ ⟨["time"], ["red"]⟩
      ⟨[], []⟩ ⟨[], []⟩ = Except.ok () ∧
    is_dataset_empty ⟨[], []⟩ = true := by
  constructor <;> rfl

/-- C7 (amended).  `is_dataset_empty` returns true iff the dataset has zero
dimensions or zero data variables, and `VegetationChange` raises its
empty-result error exactly when one of its two checked scene datasets is
empty — independently of the water-classification datasets it also loads. -/
theorem is_dataset_empty_spec (ds b a wb wa wb' wa' : Dataset) :
    (is_dataset_empty ds = true ↔ ds.dims = [] ∨ ds.data_vars = []) ∧
    ((∃ e, vegetationChangeEmptyCheck b a wb wa = Except.error e) ↔
      is_dataset_empty b = true ∨ is_dataset_empty a = true) ∧
    (vegetationChangeEmptyCheck b a wb wa = Except.ok () ↔
      is_dataset_empty b = false ∧ is_dataset_empty a = false) ∧
    vegetationChangeEmptyCheck b a wb wa = vegetationChangeEmptyCheck b a wb' wa' := by
  refine ⟨?_, ?_, ?_, rfl⟩
  · simp [is_dataset_empty, checks_for_empty, List.length_eq_zero]
  · rw [vegetationChangeEmptyCheck]
    split_ifs <;> simp_all
  · rw [vegetationChangeEmptyCheck]
    split_ifs <;> simp_all
